import Mathlib

/-!
Shallow embedding of `src/dockerpty/pty.py` (the terminal-session engine of
dockerpty): the `WINCHHandler` signal guard and the `PseudoTerminal`
controller (`start`, `israw`, `resize`, `sockets`, `_hijack_tty`).

The embedding threads explicit state (the process-wide WINCH signal slot,
the local terminal's raw-mode flag, the blocking flags of the three pump
descriptor sets) and records an event trace of every externally visible
action: transport inspect calls, attach-stream openings, blocking-mode
toggles, signal-handler installation/restoration, raw-mode entry/exit,
transport resize pushes, multiplexer selects and pump flushes.

The leaf modules `dockerpty.io` (Pump, select, set_blocking) and
`dockerpty.tty` (Terminal, size) are not part of the source under
verification; their interface behaviour is modelled from the spec where the
controller depends on it (marked `Modelled from the spec:` below).
-/

namespace Dockerpty

/-- A value occupying the process-wide WINCH signal slot, as Python's
`signal` module reads it back: `pyNone` is Python's `None` (a handler not
installed from Python code), `sigDfl`/`sigIgn` the default/ignore
dispositions, `winchHandle` the closure installed by `WINCHHandler.start`,
and `py n` any other Python-level callable. -/
inductive Handler
  | pyNone
  | sigDfl
  | sigIgn
  | winchHandle
  | py (n : Nat)
deriving DecidableEq, Repr

/-- Externally visible actions of the controller, in the order they occur. -/
inductive Event
  | inspectCall
  | attachCall (channel : Fin 3)
  | setBlockingCall (i : Fin 3) (b : Bool)
  | winchInstall
  | winchRestore
  | rawEnter
  | rawExit
  | transportResize (rows cols : Nat)
  | selectCall
  | flushCall (i : Fin 3)
deriving DecidableEq, Repr

/-- True exactly for pump-flush events. -/
def isFlushEv : Event → Bool
  | .flushCall _ => true
  | _ => false

/-- True exactly for transport resize-push events. -/
def isResizeEv : Event → Bool
  | .transportResize _ _ => true
  | _ => false

/-- True exactly for the raw-mode guard's entry/exit events. -/
def isRawEv : Event → Bool
  | .rawEnter => true
  | .rawExit => true
  | _ => false

/-- Mutable process/terminal state touched by the controller: the WINCH
signal slot, whether the local terminal device is in raw mode, and the
blocking flags of the descriptors underlying the three pumps
(stdin pump, stdout pump, stderr pump). -/
structure World where
  winchSlot : Handler
  rawMode : Bool
  blockStdin : Bool
  blockStdout : Bool
  blockStderr : Bool
deriving DecidableEq, Repr

/-- One observed iteration of the pump loop: either the multiplexer returns
a ready subset together with each ready pump's flush result (`none` is the
"ended" sentinel of `Pump.flush`), or the iteration raises an exception
(an unrecoverable fault inside select or a flush). -/
inductive IterStep
  | ready (l : List (Fin 3 × Option Nat))
  | raises
deriving DecidableEq, Repr

/-- How the pump loop finished: a flushed pump reported the ended sentinel,
an exception escaped an iteration, or the observation schedule ran out with
the loop still going. -/
inductive LoopOutcome
  | ended
  | raised
  | fuelOut
deriving DecidableEq, Repr

/-- The environment of one `start()` run: what the transport and the local
terminal answer, and the scheduled pump-loop observations. -/
structure Sys where
  /-- `inspect_container(...)['State']['Running']`. -/
  running : Bool
  /-- `inspect_container(...)['Config']['Tty']`. -/
  ttyFlag : Bool
  /-- `sys.stdout.isatty()`. -/
  isatty : Bool
  /-- Local terminal dimensions as (rows, cols), `none` if undeterminable. -/
  ttySize : Option (Nat × Nat)
  /-- Whether `client.resize` raises `IOError` (container already exited). -/
  resizeIOError : Bool
  /-- The pump-loop schedule observed by `_hijack_tty`. -/
  sched : List IterStep
deriving DecidableEq, Repr

/-- Modelled from the spec: `tty.size` (module `dockerpty.tty`, absent from
src) queries the local terminal's current dimensions, yielding `none` when
they cannot be determined. -/
def ttySizeOf (s : Sys) : Option (Nat × Nat) :=
  s.ttySize

/-- Python's `signal.signal`: installs a handler in the WINCH slot and
returns whatever previously occupied it. -/
def signalSignal (w : World) (h : Handler) : Handler × World :=
  (w.winchSlot, { w with winchSlot := h })

/-- State of a `WINCHHandler` object: its `original_handler` field.
`__init__` sets it to Python `None`, which the embedding renders as
`Handler.pyNone` — the same value `signal.signal` returns for a prior
handler not installed from Python. -/
structure WinchState where
  originalHandler : Handler
deriving DecidableEq, Repr

/-- Embedding of `WINCHHandler.start` (pty.py lines 58-70): saves the prior
WINCH handler and installs the resize-triggering handler. -/
def winchStart (w : World) : WinchState × World × List Event :=
  let p := signalSignal w Handler.winchHandle
  (⟨p.1⟩, p.2, [Event.winchInstall])

/-- Embedding of `WINCHHandler.stop` (pty.py lines 73-79): reinstalls the
saved handler, but only when `original_handler is not None`. -/
def winchStop (h : WinchState) (w : World) : World × List Event :=
  if h.originalHandler = Handler.pyNone then
    (w, [])
  else
    ((signalSignal w h.originalHandler).2, [Event.winchRestore])

/-- Modelled from the spec: `io.set_blocking` (module `dockerpty.io`,
absent from src) applies a blocking mode to the pump's underlying
descriptors and returns the previous mode so it can be restored later.
Pumps are indexed 0 = stdin pump, 1 = stdout pump, 2 = stderr pump. -/
def setBlocking (w : World) (i : Fin 3) (b : Bool) : Bool × World × List Event :=
  if i = 0 then
    (w.blockStdin, { w with blockStdin := b }, [Event.setBlockingCall i b])
  else if i = 1 then
    (w.blockStdout, { w with blockStdout := b }, [Event.setBlockingCall i b])
  else
    (w.blockStderr, { w with blockStderr := b }, [Event.setBlockingCall i b])

/-- Embedding of `PseudoTerminal.israw` (pty.py lines 153-164), acting on
the memo field `self.raw : Option Bool`: on a cache miss it queries the
transport (`container_info`, one `inspectCall` event) and caches
`sys.stdout.isatty() and info['Config']['Tty']`. Returns the value, the
updated cache, and the events emitted. -/
def israw (s : Sys) (raw : Option Bool) : Bool × Option Bool × List Event :=
  match raw with
  | some b => (b, some b, [])
  | none =>
      let v := s.isatty && s.ttyFlag
      (v, some v, [Event.inspectCall])

/-- The transport's resize RPC (`client.resize`): pushes geometry and either
succeeds or fails with `IOError` (container already exited). -/
def clientResize (s : Sys) (rows cols : Nat) : Except Unit Unit × List Event :=
  (if s.resizeIOError then .error () else .ok (), [Event.transportResize rows cols])

/-- Result of `resize`: the outcome escaping to the caller, the updated
memo cache, and the events emitted. -/
structure ResizeOut where
  result : Except Unit Unit
  raw : Option Bool
  trace : List Event
deriving Repr

/-- Embedding of `PseudoTerminal.resize` (pty.py lines 181-199): no-op
unless `israw()`; falls back to `tty.size(sys.stdout)` when `size` is None;
skips the push when the size is undeterminable; swallows `IOError` from the
transport (the `.error` branch of the inner match is Python's
`except IOError: pass`), so every branch escapes with `.ok ()`. -/
def resize (s : Sys) (raw : Option Bool) (size : Option (Nat × Nat)) : ResizeOut :=
  let iz := israw s raw
  if !iz.1 then
    ⟨.ok (), iz.2.1, iz.2.2⟩
  else
    match size.orElse (fun _ => ttySizeOf s) with
    | none => ⟨.ok (), iz.2.1, iz.2.2⟩
    | some (rows, cols) =>
        let c := clientResize s rows cols
        match c.1 with
        | .error _ => ⟨.ok (), iz.2.1, iz.2.2 ++ c.2⟩
        | .ok _ => ⟨.ok (), iz.2.1, iz.2.2 ++ c.2⟩

/-- Trace of one pump-loop iteration: the select call, then a flush of every
ready pump (the list comprehension `[p.flush() is not None for p in ready]`
flushes them all before `all` is consulted). -/
def iterTrace (l : List (Fin 3 × Option Nat)) : List Event :=
  Event.selectCall :: l.map (fun p => Event.flushCall p.1)

/-- Embedding of the `while True` pump loop of `PseudoTerminal._hijack_tty`
(pty.py lines 213-216): select, flush all ready pumps, break when any flush
returned the ended sentinel (`None`). -/
def runLoop : List IterStep → List Event × LoopOutcome
  | [] => ([], .fuelOut)
  | .raises :: _ => ([Event.selectCall], .raised)
  | .ready l :: rest =>
      if l.any (fun p => p.2.isNone) then
        (iterTrace l, .ended)
      else
        let r := runLoop rest
        (iterTrace l ++ r.1, r.2)

/-- Result of `_hijack_tty`: updated memo cache, updated world, trace,
and how the loop finished. -/
structure HijackOut where
  raw : Option Bool
  world : World
  trace : List Event
  outcome : LoopOutcome
deriving DecidableEq, Repr

/-- Embedding of `PseudoTerminal._hijack_tty` (pty.py lines 210-216).
The scoped guard `tty.Terminal(sys.stdin, raw=self.israw())` is modelled
from the spec (module `dockerpty.tty`, absent from src): entry captures the
terminal attributes and switches to raw mode only when raw is requested,
and exit restores the captured attributes on every path, no-op if entry
was a no-op. Inside the guard the controller pushes initial geometry via
`self.resize()` and then runs the pump loop. -/
def hijackTty (s : Sys) (raw0 : Option Bool) (w : World) : HijackOut :=
  let iz := israw s raw0
  let b := iz.1
  let enterEvs := if b then [Event.rawEnter] else []
  let w1 := if b then { w with rawMode := true } else w
  let rz := resize s iz.2.1 none
  let lp := runLoop s.sched
  let exitEvs := if b then [Event.rawExit] else []
  let w2 := if b then { w1 with rawMode := w.rawMode } else w1
  ⟨rz.raw, w2, iz.2.2 ++ enterEvs ++ rz.trace ++ lp.1 ++ exitEvs, lp.2⟩

/-- Errors escaping `start()`: the stopped-container check, or an exception
propagating out of the pump loop. -/
inductive StartErr
  | sessionNotRunning
  | loopRaised
deriving DecidableEq, Repr

instance : DecidableEq (Except StartErr Unit) := fun a b =>
  match a, b with
  | .ok (), .ok () => isTrue rfl
  | .error e, .error f =>
      if h : e = f then isTrue (h ▸ rfl)
      else isFalse (fun hh => h (by cases hh; rfl))
  | .ok _, .error _ => isFalse (fun hh => Except.noConfusion hh)
  | .error _, .ok _ => isFalse (fun hh => Except.noConfusion hh)

/-- Result of `PseudoTerminal.start`: outcome, final memo cache, final
world, and the full event trace. -/
structure StartOut where
  result : Except StartErr Unit
  raw : Option Bool
  world : World
  trace : List Event
deriving DecidableEq, Repr

/-- Embedding of `PseudoTerminal.start` (pty.py lines 122-150): inspect the
container and raise if it is not running; open the three attach sockets;
build the three pumps; inside `try`: force all pumps nonblocking (saving
the previous flags), enter the `WINCHHandler` scope, run `_hijack_tty`;
`finally`: restore every pump's saved blocking flag. -/
def start (s : Sys) (raw0 : Option Bool) (w : World) : StartOut :=
  if s.running = false then
    { result := .error .sessionNotRunning, raw := raw0, world := w,
      trace := [Event.inspectCall] }
  else
    let attachEvs := [Event.attachCall 0, Event.attachCall 1, Event.attachCall 2]
    let sb0 := setBlocking w 0 false
    let sb1 := setBlocking sb0.2.1 1 false
    let sb2 := setBlocking sb1.2.1 2 false
    let w1 := sb2.2.1
    let sbEvs := sb0.2.2 ++ sb1.2.2 ++ sb2.2.2
    let ws := winchStart w1
    let hj := hijackTty s raw0 ws.2.1
    let stp := winchStop ws.1 hj.world
    let rb0 := setBlocking stp.1 0 sb0.1
    let rb1 := setBlocking rb0.2.1 1 sb1.1
    let rb2 := setBlocking rb1.2.1 2 sb2.1
    { result := match hj.outcome with
        | .raised => .error .loopRaised
        | _ => .ok ()
      raw := hj.raw
      world := rb2.2.1
      trace := Event.inspectCall :: attachEvs ++ sbEvs ++ ws.2.2 ++ hj.trace
                 ++ stp.2 ++ rb0.2.2 ++ rb1.2.2 ++ rb2.2.2 }

/-- A sample environment for witnesses: running session, pseudo-terminal
allocated, interactive local terminal of size 40x100, a pump-loop schedule
whose second iteration reports an ended pump. -/
def sampleSys : Sys where
  running := true
  ttyFlag := true
  isatty := true
  ttySize := some (40, 100)
  resizeIOError := false
  sched := [.ready [(0, some 5)], .ready [(1, none), (2, some 3)]]

/-- A sample initial world for witnesses: a Python-level prior WINCH
handler, cooked terminal mode, mixed blocking flags. -/
def sampleWorld : World where
  winchSlot := .sigDfl
  rawMode := false
  blockStdin := true
  blockStdout := true
  blockStderr := false

/-- The memo cache returned by `israw` always holds the returned value. -/
lemma israw_snd (s : Sys) (raw : Option Bool) :
    (israw s raw).2.1 = some (israw s raw).1 := by
  cases raw <;> rfl

/-- On a cache hit `israw` returns the cached value and emits no events. -/
lemma israw_cached (s : Sys) (b : Bool) : israw s (some b) = (b, some b, []) :=
  rfl

/-- Every branch of `resize` escapes with `.ok ()`: the only failure source,
the transport call, sits inside Python's `try`/`except IOError`. -/
lemma resize_result (s : Sys) (raw : Option Bool) (size : Option (Nat × Nat)) :
    (resize s raw size).result = .ok () := by
  unfold resize
  cases hb : (israw s raw).1
  · simp [hb]
  · simp [hb]
    split
    · rfl
    · split <;> rfl

/-- The memo cache coming out of `resize` is the one `israw` produced. -/
lemma resize_raw (s : Sys) (raw : Option Bool) (size : Option (Nat × Nat)) :
    (resize s raw size).raw = (israw s raw).2.1 := by
  unfold resize
  cases hb : (israw s raw).1
  · simp [hb]
  · simp [hb]
    split
    · rfl
    · split <;> rfl

/-- Closed form of `hijackTty`: the memoized raw flag, the unchanged world
(raw mode is entered and restored), and the trace
israw-query ++ raw-enter ++ resize ++ loop ++ raw-exit. -/
lemma hijackTty_eq (s : Sys) (raw0 : Option Bool) (w : World) :
    hijackTty s raw0 w =
      ⟨(israw s raw0).2.1, w,
       (israw s raw0).2.2 ++ (if (israw s raw0).1 then [Event.rawEnter] else []) ++
         (resize s (israw s raw0).2.1 none).trace ++ (runLoop s.sched).1 ++
         (if (israw s raw0).1 then [Event.rawExit] else []),
       (runLoop s.sched).2⟩ := by
  unfold hijackTty
  cases hb : (israw s raw0).1 <;>
    simp [hb, resize_raw, israw_snd, israw_cached]

/-- Closed form of `start` on a running session: the result mirrors the loop
outcome, the memo cache holds the computed raw flag, the world differs from
the initial one only when the prior WINCH handler was Python `None` (in
which case the replacement handler is left installed), and the trace is
inspect ++ attaches ++ nonblocking toggles ++ winch-install ++ hijack
++ winch-restore ++ blocking-flag restoration. -/
lemma start_eq (s : Sys) (raw0 : Option Bool) (w : World)
    (h : s.running = true) :
    start s raw0 w =
      { result := match (runLoop s.sched).2 with
          | .raised => .error .loopRaised
          | _ => .ok ()
        raw := (israw s raw0).2.1
        world := { w with winchSlot :=
          if w.winchSlot = Handler.pyNone then Handler.winchHandle
          else w.winchSlot }
        trace := Event.inspectCall :: Event.attachCall 0 :: Event.attachCall 1 ::
          Event.attachCall 2 :: Event.setBlockingCall 0 false ::
          Event.setBlockingCall 1 false :: Event.setBlockingCall 2 false ::
          Event.winchInstall ::
          ((israw s raw0).2.2 ++
            (if (israw s raw0).1 then [Event.rawEnter] else []) ++
            (resize s (israw s raw0).2.1 none).trace ++ (runLoop s.sched).1 ++
            (if (israw s raw0).1 then [Event.rawExit] else []) ++
            (if w.winchSlot = Handler.pyNone then [] else [Event.winchRestore]) ++
            [Event.setBlockingCall 0 w.blockStdin,
             Event.setBlockingCall 1 w.blockStdout,
             Event.setBlockingCall 2 w.blockStderr]) } := by
  by_cases hw : w.winchSlot = Handler.pyNone
  · simp [start, h, winchStart, winchStop, signalSignal, setBlocking,
      hijackTty_eq, hw]
  · simp [start, h, winchStart, winchStop, signalSignal, setBlocking,
      hijackTty_eq, hw]

/-- Events of `israw` are at most one transport inspect call. -/
lemma israw_mem (s : Sys) (raw : Option Bool) :
    ∀ e ∈ (israw s raw).2.2, e = Event.inspectCall := by
  cases raw <;> simp [israw]

/-- Events of one pump-loop iteration: the select, then flushes. -/
lemma iterTrace_mem (l : List (Fin 3 × Option Nat)) :
    ∀ e ∈ iterTrace l, e = Event.selectCall ∨ ∃ i, e = Event.flushCall i := by
  intro e he
  unfold iterTrace at he
  rcases List.mem_cons.mp he with h | h
  · exact Or.inl h
  · rcases List.mem_map.mp h with ⟨p, _, hp⟩
    exact Or.inr ⟨p.1, hp.symm⟩

/-- Events of the pump loop: only selects and flushes. -/
lemma runLoop_mem (steps : List IterStep) :
    ∀ e ∈ (runLoop steps).1, e = Event.selectCall ∨ ∃ i, e = Event.flushCall i := by
  induction steps with
  | nil => simp [runLoop]
  | cons hd tl ih =>
      cases hd with
      | raises => simp [runLoop]
      | ready l =>
          by_cases hl : l.any (fun p => p.2.isNone) = true
          · simpa [runLoop, hl] using iterTrace_mem l
          · intro e he
            simp [runLoop, hl] at he
            rcases he with h | h
            · exact iterTrace_mem l e h
            · exact ih e h

/-- The pump loop pushes no geometry of its own. -/
lemma runLoop_filter_resize (steps : List IterStep) :
    ((runLoop steps).1.filter isResizeEv) = [] := by
  rw [List.filter_eq_nil_iff]
  intro e he
  rcases runLoop_mem steps e he with h | ⟨i, h⟩ <;> simp [h, isResizeEv]

/-- Closed form of the `resize` trace: the israw query, then one geometry
push exactly when the raw flag holds and a size is determined (the push is
attempted whether or not the transport call then fails). -/
lemma resize_trace_eq (s : Sys) (raw : Option Bool) (size : Option (Nat × Nat)) :
    (resize s raw size).trace =
      (israw s raw).2.2 ++
        (if (israw s raw).1 then
          match size.orElse (fun _ => ttySizeOf s) with
          | none => []
          | some (r, c) => [Event.transportResize r c]
        else []) := by
  unfold resize
  cases hb : (israw s raw).1
  · simp [hb]
  · simp only [hb, Bool.not_true, Bool.false_eq_true, if_false, if_true]
    split
    · simp
    · rename_i r c _
      split <;> simp [clientResize]

/-- Events of `resize`: at most one inspect and one geometry push. -/
lemma resize_mem (s : Sys) (raw : Option Bool) (size : Option (Nat × Nat)) :
    ∀ e ∈ (resize s raw size).trace,
      e = Event.inspectCall ∨ ∃ r c, e = Event.transportResize r c := by
  intro e he
  rw [resize_trace_eq] at he
  rcases List.mem_append.mp he with h | h
  · exact Or.inl (israw_mem s raw e h)
  · by_cases hb : (israw s raw).1 = true
    · rw [if_pos hb] at h
      rcases hsz : (Option.orElse size fun _ => ttySizeOf s) with _ | ⟨r, c⟩ <;>
        rw [hsz] at h <;> simp at h
      exact Or.inr ⟨r, c, h⟩
    · rw [if_neg hb] at h
      simp at h

/-- Filtering a `takeWhile` of a filter-free list is empty. -/
lemma filter_takeWhile_nil (p q : Event → Bool) (ys : List Event)
    (h : ys.filter q = []) : (ys.takeWhile p).filter q = [] := by
  have hs := (List.takeWhile_sublist p (l := ys)).filter q
  rw [h] at hs
  exact List.sublist_nil.mp hs

/-- The filtered prefix-before-`p`-fails of `xs ++ ys` is the filtered `xs`,
when every element of `xs` passes `p` and `ys` has no `q`-elements. -/
lemma takeWhile_filter_append (p q : Event → Bool) (xs ys : List Event)
    (hxs : ∀ e ∈ xs, p e = true) (hys : ys.filter q = []) :
    ((xs ++ ys).takeWhile p).filter q = xs.filter q := by
  induction xs with
  | nil => simpa using filter_takeWhile_nil p q ys hys
  | cons hd tl ih =>
      have h1 : p hd = true := hxs hd (by simp)
      have h2 : ∀ e ∈ tl, p e = true := fun e he => hxs e (by simp [he])
      simp [List.takeWhile_cons, h1, List.filter_cons, ih h2]

/-- C1: for every session whose inspect result reports running == false,
`start()` raises SessionNotRunning before acquiring any resources — the
trace holds nothing but the single inspect call (no attach streams, no
pump construction, no blocking-flag toggle, no signal-handler install, no
raw-mode entry) and the world (signal slot, terminal mode, blocking flags)
and the israw cache are exactly as before the call. -/
theorem start_not_running_touches_nothing (s : Sys) (raw0 : Option Bool)
    (w : World) (h : s.running = false) :
    start s raw0 w =
      { result := .error .sessionNotRunning, raw := raw0, world := w,
        trace := [Event.inspectCall] } := by
  simp [start, h]

/-- Witness for C1 at a concrete stopped session. -/
theorem start_not_running_touches_nothing_witness :
    ({ sampleSys with running := false } : Sys).running = false ∧
    start { sampleSys with running := false } none sampleWorld =
      { result := .error .sessionNotRunning, raw := none, world := sampleWorld,
        trace := [Event.inspectCall] } :=
  ⟨by decide,
   start_not_running_touches_nothing { sampleSys with running := false } none
     sampleWorld (by decide)⟩

/-- C4: in every iteration of the pump loop, all pumps reported ready by the
multiplexer are flushed before the next readiness check (each processed
iteration contributes its select followed by all of its flushes), and the
loop terminates at the end of the first iteration in which any flushed pump
reports the ended sentinel — the remaining schedule is not consumed. -/
theorem pump_loop_flushes_all_then_ends
    (pre : List (List (Fin 3 × Option Nat))) (iter : List (Fin 3 × Option Nat))
    (post : List IterStep)
    (hpre : ∀ l ∈ pre, l.any (fun p => p.2.isNone) = false)
    (hiter : iter.any (fun p => p.2.isNone) = true) :
    runLoop (pre.map IterStep.ready ++ IterStep.ready iter :: post) =
      ((pre.map iterTrace).flatten ++ iterTrace iter, LoopOutcome.ended) := by
  induction pre with
  | nil => simp [runLoop, hiter]
  | cons hd tl ih =>
      have hhd := hpre hd (by simp)
      have htl : ∀ l ∈ tl, l.any (fun p => p.2.isNone) = false :=
        fun l hl => hpre l (by simp [hl])
      simp [runLoop, hhd, ih htl]

/-- Witness for C4: one clean iteration, then an iteration whose stdout
pump ends while the stderr pump is still flushed, with a further scheduled
iteration that is never consumed. -/
theorem pump_loop_flushes_all_then_ends_witness :
    (∀ l ∈ [[((0 : Fin 3), some 5)]],
      l.any (fun p => p.2.isNone) = false) ∧
    ([((1 : Fin 3), (none : Option Nat)), (2, some 3)].any
      (fun p => p.2.isNone) = true) ∧
    runLoop ([[((0 : Fin 3), some 5)]].map IterStep.ready ++
        IterStep.ready [((1 : Fin 3), (none : Option Nat)), (2, some 3)] ::
          [IterStep.ready [((0 : Fin 3), some 7)]]) =
      (([[((0 : Fin 3), some 5)]].map iterTrace).flatten ++
        iterTrace [((1 : Fin 3), (none : Option Nat)), (2, some 3)],
       LoopOutcome.ended) :=
  ⟨by decide, by decide,
   pump_loop_flushes_all_then_ends [[((0 : Fin 3), some 5)]]
     [((1 : Fin 3), (none : Option Nat)), (2, some 3)]
     [IterStep.ready [((0 : Fin 3), some 7)]] (by decide) (by decide)⟩

/-- C5: for every run of `start()` in which the three pumps are constructed
(the session is running), each pump's blocking-mode flag is restored to its
pre-session value on exit — for every loop schedule, hence whether the pump
loop ends normally, raises, or keeps going. -/
theorem start_restores_blocking_flags (s : Sys) (raw0 : Option Bool)
    (w : World) (h : s.running = true) :
    (start s raw0 w).world.blockStdin = w.blockStdin ∧
    (start s raw0 w).world.blockStdout = w.blockStdout ∧
    (start s raw0 w).world.blockStderr = w.blockStderr := by
  simp [start_eq s raw0 w h]

/-- Witness for C5 at a concrete run whose pump loop raises mid-session. -/
theorem start_restores_blocking_flags_witness :
    ({ sampleSys with sched := [.ready [(0, some 2)], .raises] } : Sys).running
        = true ∧
    ((start { sampleSys with sched := [.ready [(0, some 2)], .raises] } none
        sampleWorld).world.blockStdin = sampleWorld.blockStdin ∧
     (start { sampleSys with sched := [.ready [(0, some 2)], .raises] } none
        sampleWorld).world.blockStdout = sampleWorld.blockStdout ∧
     (start { sampleSys with sched := [.ready [(0, some 2)], .raises] } none
        sampleWorld).world.blockStderr = sampleWorld.blockStderr) :=
  ⟨by decide,
   start_restores_blocking_flags
     { sampleSys with sched := [.ready [(0, some 2)], .raises] } none
     sampleWorld (by decide)⟩

/-- C6: for every call to `resize(size)` made while `israw()` is false —
whatever value that call computes or finds cached — the transport's resize
operation is never invoked and `resize` returns normally, for every size
argument. -/
theorem resize_noop_when_not_raw (s : Sys) (raw : Option Bool)
    (size : Option (Nat × Nat)) (h : (israw s raw).1 = false) :
    (resize s raw size).result = .ok () ∧
    (resize s raw size).trace.filter isResizeEv = [] := by
  refine ⟨resize_result s raw size, ?_⟩
  rw [resize_trace_eq, List.filter_append, h]
  have : (israw s raw).2.2.filter isResizeEv = [] := by
    rw [List.filter_eq_nil_iff]
    intro e he
    simp [israw_mem s raw e he, isResizeEv]
  simp [this]

/-- Witness for C6 at a cached-false controller and an explicit size. -/
theorem resize_noop_when_not_raw_witness :
    (israw sampleSys (some false)).1 = false ∧
    ((resize sampleSys (some false) (some (9, 9))).result = .ok () ∧
     (resize sampleSys (some false) (some (9, 9))).trace.filter isResizeEv
       = []) :=
  ⟨rfl, resize_noop_when_not_raw sampleSys (some false) (some (9, 9)) rfl⟩

/-- C7: if the transport's resize call fails with the process-already-exited
error (IOError), `resize()` makes the push (it appears in the trace), the
transport call errors, yet resize swallows the failure and returns
normally — no exception propagates to the caller. -/
theorem resize_swallows_process_exited (s : Sys) (raw : Option Bool)
    (rows cols : Nat) (h1 : s.resizeIOError = true)
    (h2 : (israw s raw).1 = true) :
    (clientResize s rows cols).1 = .error () ∧
    (resize s raw (some (rows, cols))).result = .ok () ∧
    (resize s raw (some (rows, cols))).trace.filter isResizeEv
      = [Event.transportResize rows cols] := by
  refine ⟨by simp [clientResize, h1], resize_result s raw (some (rows, cols)), ?_⟩
  rw [resize_trace_eq, List.filter_append, h2]
  have : (israw s raw).2.2.filter isResizeEv = [] := by
    rw [List.filter_eq_nil_iff]
    intro e he
    simp [israw_mem s raw e he, isResizeEv]
  simp [this, isResizeEv]

/-- Witness for C7 at a concrete already-exited container. -/
theorem resize_swallows_process_exited_witness :
    ({ sampleSys with resizeIOError := true } : Sys).resizeIOError = true ∧
    (israw { sampleSys with resizeIOError := true } (some true)).1 = true ∧
    ((clientResize { sampleSys with resizeIOError := true } 24 80).1
        = .error () ∧
     (resize { sampleSys with resizeIOError := true } (some true)
        (some (24, 80))).result = .ok () ∧
     (resize { sampleSys with resizeIOError := true } (some true)
        (some (24, 80))).trace.filter isResizeEv
       = [Event.transportResize 24 80]) :=
  ⟨rfl, rfl,
   resize_swallows_process_exited { sampleSys with resizeIOError := true }
     (some true) 24 80 rfl rfl⟩

/-- C8: `israw()` computes, on first call (empty cache), exactly
"local stdout is a tty AND the session got a pseudo-terminal", querying the
transport once; the computed value is cached, and a subsequent call on the
resulting cache returns the same value and the same cache while emitting no
events at all — in particular no further transport query. -/
theorem israw_memoized (s : Sys) :
    (israw s none).1 = (s.isatty && s.ttyFlag) ∧
    (israw s none).2.2 = [Event.inspectCall] ∧
    israw s (israw s none).2.1 = ((israw s none).1, (israw s none).2.1, []) :=
  ⟨rfl, rfl, rfl⟩

/-- C10: when the raw flag holds, no explicit size argument is given, and
the local terminal's dimensions cannot be determined, `resize()` makes no
transport resize call and returns normally. -/
theorem resize_skips_when_size_unknown (s : Sys) (raw : Option Bool)
    (h1 : (israw s raw).1 = true) (h2 : s.ttySize = none) :
    (resize s raw none).result = .ok () ∧
    (resize s raw none).trace.filter isResizeEv = [] := by
  refine ⟨resize_result s raw none, ?_⟩
  rw [resize_trace_eq, List.filter_append, h1]
  have : (israw s raw).2.2.filter isResizeEv = [] := by
    rw [List.filter_eq_nil_iff]
    intro e he
    simp [israw_mem s raw e he, isResizeEv]
  simp [this, ttySizeOf, h2, Option.orElse]

/-- C2 as stated is refuted: when the prior WINCH handler is recorded as
Python None (a handler not installed from Python), `start()` exits with the
replacement handler still installed — the slot does not hold the prior
occupant. -/
theorem winch_restoration_counterexample :
    ¬ ((start sampleSys none
          { sampleWorld with winchSlot := Handler.pyNone }).world.winchSlot =
        ({ sampleWorld with winchSlot := Handler.pyNone } : World).winchSlot) := by
  decide

/-- C2 (amended): after `start()` returns — normally or by raising, for
every schedule — the WINCH slot holds exactly the handler that occupied it
before the call, provided that prior handler was recorded as something
other than Python None; a prior recorded as None leaves the replacement
handler installed. -/
theorem winch_slot_restored_when_prior_not_none (s : Sys) (raw0 : Option Bool)
    (w : World) (h : w.winchSlot ≠ Handler.pyNone) :
    (start s raw0 w).world.winchSlot = w.winchSlot := by
  cases hr : s.running
  · simp [start, hr]
  · simp [start_eq s raw0 w hr, h]

/-- Witness for the amended C2: a default-disposition prior handler is
restored even when the pump loop raises. -/
theorem winch_slot_restored_when_prior_not_none_witness :
    sampleWorld.winchSlot ≠ Handler.pyNone ∧
    (start { sampleSys with sched := [.raises] } none sampleWorld).world.winchSlot
      = sampleWorld.winchSlot :=
  ⟨by decide,
   winch_slot_restored_when_prior_not_none
     { sampleSys with sched := [.raises] } none sampleWorld (by decide)⟩

/-- C3 as stated is refuted: in a concrete raw-mode run of `start()`, the
WINCH handler is installed strictly before raw mode is entered, so there is
a moment (after the install, before raw-mode entry) at which the signal
handler is active while raw mode is not — the raw-mode guard is not
entered first. -/
theorem raw_first_nesting_counterexample :
    Event.winchInstall ∈ (start sampleSys none sampleWorld).trace ∧
    Event.rawEnter ∈ (start sampleSys none sampleWorld).trace ∧
    (start sampleSys none sampleWorld).trace.indexOf Event.winchInstall <
      (start sampleSys none sampleWorld).trace.indexOf Event.rawEnter := by
  decide

/-- C3 (amended): the nesting is the reverse of the claim: during `start()`
the raw-mode guard's scope is entered nested inside the signal handler's
scope — the handler is installed first, both raw-mode entry and exit happen
strictly inside the handler's scope, and the handler restoration (when it
occurs) comes only after raw mode is exited. -/
theorem raw_scope_inside_winch_scope (s : Sys) (raw0 : Option Bool) (w : World)
    (hr : s.running = true) (hraw : (israw s raw0).1 = true) :
    ∃ pre mid post,
      (start s raw0 w).trace = pre ++ Event.winchInstall :: (mid ++ post) ∧
      (∀ e ∈ pre, isRawEv e = false) ∧
      Event.rawEnter ∈ mid ∧ Event.rawExit ∈ mid ∧
      (∀ e ∈ post, isRawEv e = false) ∧
      Event.winchRestore ∉ pre ∧ Event.winchRestore ∉ mid := by
  refine ⟨[Event.inspectCall, Event.attachCall 0, Event.attachCall 1,
      Event.attachCall 2, Event.setBlockingCall 0 false,
      Event.setBlockingCall 1 false, Event.setBlockingCall 2 false],
    (israw s raw0).2.2 ++ [Event.rawEnter] ++
      (resize s (israw s raw0).2.1 none).trace ++ (runLoop s.sched).1 ++
      [Event.rawExit],
    (if w.winchSlot = Handler.pyNone then [] else [Event.winchRestore]) ++
      [Event.setBlockingCall 0 w.blockStdin,
       Event.setBlockingCall 1 w.blockStdout,
       Event.setBlockingCall 2 w.blockStderr],
    ?_, ?_, ?_, ?_, ?_, ?_, ?_⟩
  · simp [start_eq s raw0 w hr, hraw]
  · decide
  · simp
  · simp
  · intro e he
    rcases List.mem_append.mp he with h | h
    · revert h
      split <;> intro h <;> simp at h
      simp [h, isRawEv]
    · simp at h
      rcases h with h | h | h <;> simp [h, isRawEv]
  · decide
  · intro h
    simp only [List.mem_append] at h
    rcases h with ((((h | h) | h) | h) | h)
    · have := israw_mem s raw0 _ h
      simp at this
    · simp at h
    · rcases resize_mem s (israw s raw0).2.1 none _ h with h2 | ⟨r, c, h2⟩ <;>
        simp at h2
    · rcases runLoop_mem s.sched _ h with h2 | ⟨i, h2⟩ <;> simp at h2
    · simp at h

/-- Witness for the amended C3 at a concrete raw-mode session. -/
theorem raw_scope_inside_winch_scope_witness :
    sampleSys.running = true ∧ (israw sampleSys none).1 = true ∧
    (∃ pre mid post,
      (start sampleSys none sampleWorld).trace =
        pre ++ Event.winchInstall :: (mid ++ post) ∧
      (∀ e ∈ pre, isRawEv e = false) ∧
      Event.rawEnter ∈ mid ∧ Event.rawExit ∈ mid ∧
      (∀ e ∈ post, isRawEv e = false) ∧
      Event.winchRestore ∉ pre ∧ Event.winchRestore ∉ mid) :=
  ⟨rfl, rfl, raw_scope_inside_winch_scope sampleSys none sampleWorld rfl rfl⟩

/-- C9: for a live session with a pseudo-terminal allocated and an
interactive local terminal of size (40 rows, 100 cols), `start()` pushes
geometry (40,100) to the transport exactly once before the first pump flush
of the loop: filtering the trace prefix that precedes the first flush for
transport pushes yields exactly the one push (40,100) — for every loop
schedule and every initial world. -/
theorem initial_geometry_once_before_first_flush (s : Sys) (w : World)
    (hr : s.running = true) (ha : s.isatty = true) (ht : s.ttyFlag = true)
    (hs : s.ttySize = some (40, 100)) :
    ((start s none w).trace.takeWhile (fun e => !isFlushEv e)).filter isResizeEv
      = [Event.transportResize 40 100] := by
  have hiz : israw s none = (true, some true, [Event.inspectCall]) := by
    simp [israw, ha, ht]
  have hrz : (resize s (some true) none).trace
      = [Event.transportResize 40 100] := by
    rw [resize_trace_eq]
    simp [israw_cached, ttySizeOf, hs, Option.orElse]
  have htr : (start s none w).trace =
      ([Event.inspectCall, Event.attachCall 0, Event.attachCall 1,
        Event.attachCall 2, Event.setBlockingCall 0 false,
        Event.setBlockingCall 1 false, Event.setBlockingCall 2 false,
        Event.winchInstall, Event.inspectCall, Event.rawEnter,
        Event.transportResize 40 100] : List Event) ++
      ((runLoop s.sched).1 ++ ([Event.rawExit] ++
        ((if w.winchSlot = Handler.pyNone then [] else [Event.winchRestore]) ++
         [Event.setBlockingCall 0 w.blockStdin,
          Event.setBlockingCall 1 w.blockStdout,
          Event.setBlockingCall 2 w.blockStderr]))) := by
    simp [start_eq s none w hr, hiz, hrz]
  rw [htr, takeWhile_filter_append]
  · decide
  · decide
  · by_cases hw : w.winchSlot = Handler.pyNone <;>
      simp [hw, List.filter_append, runLoop_filter_resize, isResizeEv]

/-- Witness for C9 at the sample 40x100 session. -/
theorem initial_geometry_once_before_first_flush_witness :
    sampleSys.running = true ∧ sampleSys.isatty = true ∧
    sampleSys.ttyFlag = true ∧ sampleSys.ttySize = some (40, 100) ∧
    ((start sampleSys none sampleWorld).trace.takeWhile
        (fun e => !isFlushEv e)).filter isResizeEv
      = [Event.transportResize 40 100] :=
  ⟨rfl, rfl, rfl, rfl,
   initial_geometry_once_before_first_flush sampleSys sampleWorld
     rfl rfl rfl rfl⟩

/-- Witness for C10 at a raw controller whose terminal size is unknown. -/
theorem resize_skips_when_size_unknown_witness :
    (israw { sampleSys with ttySize := none } (some true)).1 = true ∧
    ({ sampleSys with ttySize := none } : Sys).ttySize = none ∧
    ((resize { sampleSys with ttySize := none } (some true) none).result
        = .ok () ∧
     (resize { sampleSys with ttySize := none } (some true) none).trace.filter
        isResizeEv = []) :=
  ⟨rfl, rfl,
   resize_skips_when_size_unknown { sampleSys with ttySize := none }
     (some true) rfl rfl⟩

end Dockerpty
